import Mathlib

/- Shallow embedding of the unsize-experiments crate.

The embedding covers the capability hierarchy of src/unsize.rs (the traits
Unsize, StableUnsize, FromMetadataUnsize, the ConstUnsize constant variant
used by the tests, and the two blanket derivations), the coercion impls of
src/coerce_unsized.rs (references, boxes, Pin, Cell, and the commented-out
Arc impl) and the narrowing impls of src/dispatch_from_dyn.rs.

Addresses are modelled as naturals; a raw or borrowed pointer to a possibly
unsized source value is a record holding its address, its pointer metadata
(Unit for sized types) and the live instance it designates; memory, where a
claim needs to read elements back, is a total function from addresses to
values. -/

namespace UnsizeExperiments

/-- A possibly wide source pointer: the address, the pointer metadata carried
by the pointer itself (Unit for sized source types), and the live instance it
points to. This models the `self: *const Self` receiver of the capability
methods. -/
structure SrcPtr (S : Type) (MetaS : Type) where
  addr : Nat
  meta : MetaS
  deref : S

/-- A wide reference to the target shape: data address plus descriptor
metadata, as produced by `ptr::from_raw_parts`. -/
structure WideRef (MetaT : Type) where
  addr : Nat
  meta : MetaT

/-- Tier 1, trait `Unsize` of src/unsize.rs: both the target metadata and the
target data address are computed from a live instance of the source. -/
structure Unsize (S MetaS MetaT : Type) where
  target_metadata : SrcPtr S MetaS → MetaT
  target_data_address : SrcPtr S MetaS → Nat

/-- Tier 2, trait `StableUnsize` of src/unsize.rs: the target metadata is
computed from a live instance; the data address is, by contract, the source
address unchanged. -/
structure StableUnsize (S MetaS MetaT : Type) where
  target_metadata : SrcPtr S MetaS → MetaT

/-- Tier 3, trait `FromMetadataUnsize` of src/unsize.rs: the target metadata
is a plain function of the source pointer metadata, never of the live
value. -/
structure FromMetadataUnsize (MetaS MetaT : Type) where
  target_metadata : MetaS → MetaT

/-- Tier 4, trait `ConstUnsize` as it appears in src/tests.rs: an associated
constant holding the target metadata, determined by the type pair alone. -/
structure ConstUnsize (MetaT : Type) where
  TARGET_METADATA : MetaT

/-- Blanket impl of `Unsize` for `T : StableUnsize` (src/unsize.rs lines
88 to 101): `target_metadata` delegates to the stable implementation and
`target_data_address` returns `self.cast()`, the source address unchanged. -/
def StableUnsize.toUnsize {S MetaS MetaT : Type}
    (i : StableUnsize S MetaS MetaT) : Unsize S MetaS MetaT where
  target_metadata := i.target_metadata
  target_data_address := fun p => p.addr

/-- Blanket impl of `StableUnsize` for `T : FromMetadataUnsize`
(src/unsize.rs lines 108 to 116): the metadata is computed by applying the
metadata-to-metadata function to `core::ptr::metadata(self)`. -/
def FromMetadataUnsize.toStableUnsize {MetaS MetaT : Type} (S : Type)
    (i : FromMetadataUnsize MetaS MetaT) : StableUnsize S MetaS MetaT where
  target_metadata := fun p => i.target_metadata p.meta

/-- Modelled from the spec: the derivation of the Tier 3 capability from the
Tier 4 one is absent from src/unsize.rs in this iteration (`ConstUnsize`
survives only in src/tests.rs). The module comment of src/unsize.rs states
that `ConstUnsize` is exactly `FromMetadataUnsize` whose function is constant
and whose source metadata is the unit type, which this definition follows. -/
def ConstUnsize.toFromMetadataUnsize {MetaT : Type}
    (i : ConstUnsize MetaT) : FromMetadataUnsize Unit MetaT where
  target_metadata := fun _ => i.TARGET_METADATA

/-- Impl `FromMetadataUnsize<[T]> for [T; N]` (src/unsize.rs lines 119 to
123): the slice metadata is the constant N. The array itself is modelled as a
list of length N behind the pointer. -/
def arrayFromMetadataUnsize (N : Nat) : FromMetadataUnsize Unit Nat where
  target_metadata := fun _ => N

/-- A growable sequence `Vec<T>`: the address of its heap buffer, the current
elements, and the buffer capacity. -/
structure Vec (T : Type) where
  dataAddr : Nat
  elems : List T
  cap : Nat

/-- Impl `Unsize<[T]> for Vec<T>` (src/unsize.rs lines 126 to 135): the
metadata is the live `len()`, the data address is the live `as_ptr()`, the
heap buffer address rather than the address of the Vec itself. -/
def vecUnsize (T : Type) : Unsize (Vec T) Unit Nat where
  target_metadata := fun p => p.deref.elems.length
  target_data_address := fun p => p.deref.dataAddr

/-- The `CoerceUnsized` trait of src/coerce_unsized.rs: one method producing
the target wrapper from the source wrapper. -/
structure CoerceUnsized (Src Tgt : Type) where
  coerce_unsized : Src → Tgt

/-- Impl `CoerceUnsized<&'a U> for &'b T` (src/coerce_unsized.rs lines 106 to
118): the wide reference is rebuilt by `ptr::from_raw_parts` from
`target_data_address` and `target_metadata` of the source reference. -/
def coerceRef {S MetaS MetaT : Type} (i : Unsize S MetaS MetaT) :
    CoerceUnsized (SrcPtr S MetaS) (WideRef MetaT) where
  coerce_unsized := fun p => ⟨i.target_data_address p, i.target_metadata p⟩

/-- An owning box over the (possibly unsized) source type: the pointer to the
owned value plus the allocator handle, as exposed by
`Box::into_raw_with_allocator`. -/
structure BoxS (S MetaS A : Type) where
  ptr : SrcPtr S MetaS
  alloc : A

/-- An owning box over the unsized target type: a wide pointer plus the
allocator handle. -/
structure BoxU (MetaT A : Type) where
  wide : WideRef MetaT
  alloc : A

/-- Impl `CoerceUnsized<Box<U, A>> for Box<T, A>` (src/coerce_unsized.rs
lines 179 to 195): deconstruct via `into_raw_with_allocator`, rebuild the fat
pointer from `target_data_address` and `target_metadata`, reconstruct via
`from_raw_in` with the extracted allocator. The trait bound in the source is
`T: ?Sized + Unsize<U>`, the Tier 1 capability. -/
def coerceBox {S MetaS MetaT A : Type} (i : Unsize S MetaS MetaT) :
    CoerceUnsized (BoxS S MetaS A) (BoxU MetaT A) where
  coerce_unsized := fun b =>
    ⟨⟨i.target_data_address b.ptr, i.target_metadata b.ptr⟩, b.alloc⟩

/-- The `Pin` wrapper: a single pointer field. -/
structure Pin (P : Type) where
  pointer : P

/-- The `Cell` wrapper: its single value. -/
structure Cell (T : Type) where
  value : T

/-- Constructor `Cell::new`. -/
def Cell.new {T : Type} (v : T) : Cell T := ⟨v⟩

/-- Method `Cell::into_inner`. -/
def Cell.into_inner {T : Type} (c : Cell T) : T := c.value

/-- Impl `CoerceUnsized<Pin<U>> for Pin<P>` where `P: CoerceUnsized<U>`
(src/coerce_unsized.rs lines 203 to 214): rebuild the Pin around the coerced
inner pointer. -/
def coercePin {P U : Type} (c : CoerceUnsized P U) :
    CoerceUnsized (Pin P) (Pin U) where
  coerce_unsized := fun p => ⟨c.coerce_unsized p.pointer⟩

/-- Impl `CoerceUnsized<Cell<U>> for Cell<T>` where `T: CoerceUnsized<U>`
(src/coerce_unsized.rs lines 216 to 220): `Cell::new` of the coerced
`into_inner` value. -/
def coerceCell {S U : Type} (c : CoerceUnsized S U) :
    CoerceUnsized (Cell S) (Cell U) where
  coerce_unsized := fun x => Cell.new (c.coerce_unsized x.into_inner)

/-- A live reference-counted handle `Arc<T>`: the pointer to the payload
inside the shared allocation (what `Arc::into_raw` exposes) plus the shared
strong count of that allocation. -/
structure ArcS (S MetaS : Type) where
  payload : SrcPtr S MetaS
  strong : Nat

/-- A reference-counted handle over the unsized target: the payload data
address, the descriptor metadata and the shared strong count. -/
structure ArcU (MetaT : Type) where
  payloadAddr : Nat
  meta : MetaT
  strong : Nat

/-- The commented-out impl `CoerceUnsized<Arc<U>> for Arc<T>`
(src/coerce_unsized.rs lines 222 to 241): `Arc::into_raw` yields the payload
pointer, the new handle is rebuilt by `Arc::from_raw` of
`ptr::from_raw_parts` applied to `target_data_address` and `target_metadata`;
neither step touches the strong count. Its trait bound is
`T: ?Sized + Unsize<U>`, the Tier 1 capability. -/
def coerceArc {S MetaS MetaT : Type} (i : Unsize S MetaS MetaT) :
    CoerceUnsized (ArcS S MetaS) (ArcU MetaT) where
  coerce_unsized := fun a =>
    ⟨i.target_data_address a.payload, i.target_metadata a.payload, a.strong⟩

/-- The `DispatchFromDyn` trait of src/dispatch_from_dyn.rs: recover the
narrow wrapper from the wide one. -/
structure DispatchFromDyn (NarrowSelf WideSelf : Type) where
  wide_to_narrow : WideSelf → NarrowSelf

/-- Impl `DispatchFromDyn<&'a U> for &'a T` (src/dispatch_from_dyn.rs lines
29 to 41): take the address component of `to_raw_parts`, discard the
metadata, and reinterpret the address as the narrow reference, which is
modelled by the bare address. The capability bound `T: Unsize<U>` is carried
as the instance argument; no run-time check is performed. -/
def dispatchRef {S MetaS MetaT : Type} (_i : Unsize S MetaS MetaT) :
    DispatchFromDyn Nat (WideRef MetaT) where
  wide_to_narrow := fun wide => wide.addr

/-- A narrow owning box in the global allocator, as rebuilt by
`Box::from_raw`: just the data address. -/
structure NarrowBox where
  addr : Nat

/-- Impl `DispatchFromDyn<Box<U>> for Box<T>` (src/dispatch_from_dyn.rs lines
43 to 54): `Box::into_raw`, take the address component of `to_raw_parts`,
`Box::from_raw` of its cast. Both boxes use the global allocator, modelled by
the unit allocator handle. -/
def dispatchBox {S MetaS MetaT : Type} (_i : Unsize S MetaS MetaT) :
    DispatchFromDyn NarrowBox (BoxU MetaT Unit) where
  wide_to_narrow := fun wide => ⟨wide.wide.addr⟩

/-- Impl `DispatchFromDyn<Pin<U>> for Pin<P>` where `P: DispatchFromDyn<U>`
(src/dispatch_from_dyn.rs lines 18 to 27): delegate to the pointer field and
rewrap. -/
def dispatchPin {P U : Type} (d : DispatchFromDyn P U) :
    DispatchFromDyn (Pin P) (Pin U) where
  wide_to_narrow := fun wide => ⟨d.wide_to_narrow wide.pointer⟩

/-- Read n consecutive elements of memory starting at address a, modelling a
read through a wide slice reference. -/
def readRange {T : Type} (mem : Nat → T) (a n : Nat) : List T :=
  (List.range n).map fun i => mem (a + i)

/-- The list l is laid out in memory starting at address a, one element per
address unit. -/
@[reducible] def storedAt {T : Type} (mem : Nat → T) (a : Nat) (l : List T) : Prop :=
  ∀ i, (hi : i < l.length) → mem (a + i) = l.get ⟨i, hi⟩

/-- Descriptor metadata of a polymorphic-interface handle: the address of its
dispatch table. This models `core::ptr::DynMetadata`, the metadata kind that
src/dispatch_from_dyn.rs imports and constrains its targets to. -/
structure DynMetadata where
  vtableAddr : Nat

/-- A concrete source type whose payload sits behind a leading header field,
so that its payload address is the value address plus one. This follows the
shape of `FixedStringWithLen` in src/tests.rs lines 56 to 71, the
repository's example of a Tier 1 instance whose `target_data_address` is
`addr_of` of a non-first field rather than the value address itself. -/
structure HeaderedValue where
  header : Nat
  payload : Nat

/-- A Tier 1 capability from the headered type to a polymorphic-interface
target: the metadata is a dispatch table and the data address projects past
the header field, exactly the kind of instantiation the comment inside the
disabled Arc impl warns about (src/coerce_unsized.rs lines 228 to 230:
`target_data_address` might not return the payload pointer), with the
projection written as in `FixedStringWithLen`: the address of the second
field. The impl's bound `T: ?Sized + Unsize<U>` admits it. -/
def headeredDynUnsize : Unsize HeaderedValue Unit DynMetadata where
  target_metadata := fun _ => ⟨77⟩
  target_data_address := fun p => p.addr + 1

/-- Concrete headered value for the Arc counterexample. -/
def hvC1 : HeaderedValue := ⟨0, 9⟩

/-- Concrete reference-counted handle over hvC1, payload at address 100,
strong count 3. -/
def arcC1 : ArcS HeaderedValue Unit := ⟨⟨100, (), hvC1⟩, 3⟩

/-- Concrete growable sequence for the Box counterexample: heap buffer at
address 64. -/
def vecC2 : Vec Nat := ⟨64, [1, 2], 8⟩

/-- Concrete owning box over vecC2: the box pointer is address 16, the
allocator handle is 0. -/
def boxC2 : BoxS (Vec Nat) Unit Nat := ⟨⟨16, (), vecC2⟩, 0⟩

/-- Concrete growable sequence for the frame-effect counterexample: heap
buffer at address 33. -/
def vecC10 : Vec Nat := ⟨33, [5], 2⟩

/-- Concrete owning box over vecC10: the box pointer is address 7, the
allocator handle is 42. -/
def boxC10 : BoxS (Vec Nat) Unit Nat := ⟨⟨7, (), vecC10⟩, 42⟩

/-- Concrete memory for the array read-back witness: 10 at address 5, 20 at
address 6. -/
def memC6 : Nat → Nat := fun a => if a = 5 then 10 else if a = 6 then 20 else 0

/-- Concrete memory for the Vec read-back witness: 3 at address 30, 4 at
address 31. -/
def memC7 : Nat → Nat := fun a => if a = 30 then 3 else if a = 31 then 4 else 0

/-- Reading back a stored list through its address recovers it exactly. -/
theorem readRange_stored {T : Type} (mem : Nat → T) (a : Nat) (l : List T)
    (h : storedAt mem a l) : readRange mem a l.length = l := by
  apply List.ext_getElem
  · simp [readRange]
  · intro i h1 h2
    simpa [readRange] using h i h2

/-- Claim C1, counterexample: coercing a live reference-counted handle over a
concrete type to a polymorphic-interface handle with the disabled Arc impl of
src/coerce_unsized.rs (bounded only by the Tier 1 capability) does not yield
a data address equal to the handle's payload address for every live handle: at
a Tier 1 capability to a dispatch-table target whose data address projects
past a header field, the coerced handle's data address is the projected
address, not the payload address. -/
theorem coerceArc_dyn_moves_address :
    ((coerceArc headeredDynUnsize).coerce_unsized arcC1).payloadAddr ≠
      arcC1.payload.addr := by decide

/-- Claim C1 (amended): the reference-counted-handle coercion leaves the
shared strong count unchanged for every live handle under any capability,
including the general Tier 1 one that is the impl's actual bound; and
whenever the capability is address-stable (Tier 2 or stronger, which covers
the Tier 4 concrete-to-polymorphic-interface instances) the coerced handle's
data address equals the original handle's payload address. -/
theorem coerceArc_stable_preserves_address_and_count
    {S MetaS MetaT MetaT1 : Type}
    (j : Unsize S MetaS MetaT1) (b : ArcS S MetaS)
    (i : StableUnsize S MetaS MetaT) (a : ArcS S MetaS) :
    (((coerceArc j).coerce_unsized b).strong = b.strong) ∧
    (((coerceArc i.toUnsize).coerce_unsized a).payloadAddr = a.payload.addr) ∧
    (((coerceArc i.toUnsize).coerce_unsized a).strong = a.strong) :=
  ⟨rfl, rfl, rfl⟩

/-- Claim C2, counterexample: the owning-box coercion of
src/coerce_unsized.rs is bounded only by the Tier 1 capability and recomputes
the data address through it, so the coerced box's data address need not equal
the source box's: on the repository's Tier 1 instance for growable sequences
it becomes the heap buffer address. -/
theorem coerceBox_moves_address :
    ((coerceBox (vecUnsize Nat)).coerce_unsized boxC2).wide.addr ≠
      boxC2.ptr.addr := by decide

/-- Claim C2 (amended): the owning-box coercion deconstructs the box into
pointer and allocator and reconstructs with the same allocator, recomputing
both the data address and the descriptor metadata through the capability; it
requires only the Tier 1 capability, and the resulting box's data address
equals the source box's exactly when the capability is address-stable (Tier 2
or stronger). -/
theorem coerceBox_stable_preserves_address
    {S MetaS MetaT A : Type} (i : StableUnsize S MetaS MetaT) (b : BoxS S MetaS A) :
    ((coerceBox i.toUnsize).coerce_unsized b).wide.addr = b.ptr.addr ∧
    ((coerceBox i.toUnsize).coerce_unsized b).alloc = b.alloc ∧
    ((coerceBox i.toUnsize).coerce_unsized b).wide.meta = i.target_metadata b.ptr :=
  ⟨rfl, rfl, rfl⟩

/-- Claim C3: each stronger capability tier generically yields every weaker
tier, and the derived weaker-tier metadata operation returns the same
descriptor as the native stronger-tier operation: the Tier 4 constant reaches
Tier 1 unchanged through the whole derivation chain, the Tier 3 function
applied to the source pointer metadata is what the derived Tier 2 and Tier 1
operations return, and the Tier 2 operation is what the derived Tier 1
operation returns. -/
theorem tier_derivations_agree {S4 S MetaS MetaT4 MetaT : Type}
    (i4 : ConstUnsize MetaT4) (q : SrcPtr S4 Unit)
    (i3 : FromMetadataUnsize MetaS MetaT) (p : SrcPtr S MetaS)
    (i2 : StableUnsize S MetaS MetaT) (r : SrcPtr S MetaS) :
    ((i4.toFromMetadataUnsize.toStableUnsize S4).toUnsize.target_metadata q =
      i4.TARGET_METADATA) ∧
    ((i3.toStableUnsize S).toUnsize.target_metadata p = i3.target_metadata p.meta) ∧
    ((i3.toStableUnsize S).target_metadata p = i3.target_metadata p.meta) ∧
    (i2.toUnsize.target_metadata r = i2.target_metadata r) :=
  ⟨rfl, rfl, rfl, rfl⟩

/-- Claim C4: for every address-stable (Tier 2 or stronger) capability, the
derived Tier 1 data-address operation returns the source pointer's own
address unchanged. -/
theorem stable_derived_address_is_source_address
    {S MetaS MetaT : Type} (i : StableUnsize S MetaS MetaT) (p : SrcPtr S MetaS) :
    i.toUnsize.target_data_address p = p.addr := rfl

/-- Claim C5: narrowing a wide reference discards its descriptor metadata and
retains its data address, and composing an address-stable coercion with
narrowing recovers the original narrow address, both for borrowed references
and for owning boxes. -/
theorem wide_to_narrow_round_trip
    {S MetaS MetaT : Type} (i : StableUnsize S MetaS MetaT)
    (w : WideRef MetaT) (p : SrcPtr S MetaS) (b : BoxS S MetaS Unit) :
    ((dispatchRef i.toUnsize).wide_to_narrow w = w.addr) ∧
    ((dispatchRef i.toUnsize).wide_to_narrow
        ((coerceRef i.toUnsize).coerce_unsized p) = p.addr) ∧
    (((dispatchBox i.toUnsize).wide_to_narrow
        ((coerceBox i.toUnsize).coerce_unsized b)).addr = b.ptr.addr) :=
  ⟨rfl, rfl, rfl⟩

/-- Claim C6: coercing a reference to a fixed-size sequence of length N to an
unbounded-sequence reference yields descriptor N and the original address,
and reading the element range back through the wide reference reproduces the
original elements exactly. -/
theorem array_unsize_coerce_roundtrip {T : Type} (N : Nat)
    (p : SrcPtr (List T) Unit) (mem : Nat → T)
    (hN : p.deref.length = N) (hst : storedAt mem p.addr p.deref) :
    (((coerceRef ((arrayFromMetadataUnsize N).toStableUnsize (List T)).toUnsize).coerce_unsized p).meta = N) ∧
    (((coerceRef ((arrayFromMetadataUnsize N).toStableUnsize (List T)).toUnsize).coerce_unsized p).addr = p.addr) ∧
    (readRange mem
      (((coerceRef ((arrayFromMetadataUnsize N).toStableUnsize (List T)).toUnsize).coerce_unsized p).addr)
      (((coerceRef ((arrayFromMetadataUnsize N).toStableUnsize (List T)).toUnsize).coerce_unsized p).meta) =
      p.deref) := by
  refine ⟨rfl, rfl, ?_⟩
  have h2 := readRange_stored mem p.addr p.deref hst
  rw [hN] at h2
  exact h2

/-- Claim C6 witness: the array [10, 20] of length 2 stored at address 5. -/
theorem array_unsize_coerce_roundtrip_witness :
    ((⟨5, (), [10, 20]⟩ : SrcPtr (List Nat) Unit).deref.length = 2 ∧
      storedAt memC6 5 [10, 20]) ∧
    ((((coerceRef ((arrayFromMetadataUnsize 2).toStableUnsize (List Nat)).toUnsize).coerce_unsized ⟨5, (), [10, 20]⟩).meta = 2) ∧
    (((coerceRef ((arrayFromMetadataUnsize 2).toStableUnsize (List Nat)).toUnsize).coerce_unsized ⟨5, (), [10, 20]⟩).addr =
      (⟨5, (), [10, 20]⟩ : SrcPtr (List Nat) Unit).addr) ∧
    (readRange memC6
      (((coerceRef ((arrayFromMetadataUnsize 2).toStableUnsize (List Nat)).toUnsize).coerce_unsized ⟨5, (), [10, 20]⟩).addr)
      (((coerceRef ((arrayFromMetadataUnsize 2).toStableUnsize (List Nat)).toUnsize).coerce_unsized ⟨5, (), [10, 20]⟩).meta) =
      (⟨5, (), [10, 20]⟩ : SrcPtr (List Nat) Unit).deref)) :=
  ⟨⟨by decide, by decide⟩,
    array_unsize_coerce_roundtrip 2 ⟨5, (), [10, 20]⟩ memC6 (by decide) (by decide)⟩

/-- Claim C7: coercing a reference to a growable sequence to an
unbounded-sequence reference yields as descriptor the current element count
(read live, independent of the capacity) and as data address the sequence's
live buffer address, and reading back through the wide reference reproduces
the current elements exactly. -/
theorem vec_unsize_coerce_roundtrip {T : Type}
    (p : SrcPtr (Vec T) Unit) (mem : Nat → T)
    (hst : storedAt mem p.deref.dataAddr p.deref.elems) :
    (((coerceRef (vecUnsize T)).coerce_unsized p).meta = p.deref.elems.length) ∧
    (((coerceRef (vecUnsize T)).coerce_unsized p).addr = p.deref.dataAddr) ∧
    (readRange mem
      (((coerceRef (vecUnsize T)).coerce_unsized p).addr)
      (((coerceRef (vecUnsize T)).coerce_unsized p).meta) = p.deref.elems) :=
  ⟨rfl, rfl, readRange_stored mem p.deref.dataAddr p.deref.elems hst⟩

/-- Claim C7 witness: a growable sequence with elements [3, 4] stored at
buffer address 30 and capacity 7, referenced from address 9. -/
theorem vec_unsize_coerce_roundtrip_witness :
    storedAt memC7
      (⟨9, (), ⟨30, [3, 4], 7⟩⟩ : SrcPtr (Vec Nat) Unit).deref.dataAddr
      (⟨9, (), ⟨30, [3, 4], 7⟩⟩ : SrcPtr (Vec Nat) Unit).deref.elems ∧
    ((((coerceRef (vecUnsize Nat)).coerce_unsized ⟨9, (), ⟨30, [3, 4], 7⟩⟩).meta =
      (⟨9, (), ⟨30, [3, 4], 7⟩⟩ : SrcPtr (Vec Nat) Unit).deref.elems.length) ∧
    (((coerceRef (vecUnsize Nat)).coerce_unsized ⟨9, (), ⟨30, [3, 4], 7⟩⟩).addr =
      (⟨9, (), ⟨30, [3, 4], 7⟩⟩ : SrcPtr (Vec Nat) Unit).deref.dataAddr) ∧
    (readRange memC7
      (((coerceRef (vecUnsize Nat)).coerce_unsized ⟨9, (), ⟨30, [3, 4], 7⟩⟩).addr)
      (((coerceRef (vecUnsize Nat)).coerce_unsized ⟨9, (), ⟨30, [3, 4], 7⟩⟩).meta) =
      (⟨9, (), ⟨30, [3, 4], 7⟩⟩ : SrcPtr (Vec Nat) Unit).deref.elems)) :=
  ⟨by decide,
    vec_unsize_coerce_roundtrip ⟨9, (), ⟨30, [3, 4], 7⟩⟩ memC7 (by decide)⟩

/-- Claim C8: for a Tier 3 (metadata-derivable) capability, the target
descriptor is a function of the source pointer metadata alone: two source
pointers carrying equal metadata receive equal target metadata through the
derived Tier 2 operation, whatever their addresses and pointed-to values, and
the derived operation factors through the pure metadata-to-metadata
function. -/
theorem from_metadata_noninterference {S MetaS MetaT : Type}
    (i : FromMetadataUnsize MetaS MetaT) (p1 p2 : SrcPtr S MetaS)
    (h : p1.meta = p2.meta) :
    ((i.toStableUnsize S).target_metadata p1 =
      (i.toStableUnsize S).target_metadata p2) ∧
    ((i.toStableUnsize S).target_metadata p1 = i.target_metadata p1.meta) := by
  constructor
  · show i.target_metadata p1.meta = i.target_metadata p2.meta
    rw [h]
  · rfl

/-- Claim C8 witness: two pointers to different lists at different addresses
carrying the same (unit) metadata receive the same derived descriptor. -/
theorem from_metadata_noninterference_witness :
    ((⟨1, (), [7]⟩ : SrcPtr (List Nat) Unit).meta =
      (⟨2, (), [8, 9]⟩ : SrcPtr (List Nat) Unit).meta) ∧
    ((((arrayFromMetadataUnsize 3).toStableUnsize (List Nat)).target_metadata ⟨1, (), [7]⟩ =
      ((arrayFromMetadataUnsize 3).toStableUnsize (List Nat)).target_metadata ⟨2, (), [8, 9]⟩) ∧
    (((arrayFromMetadataUnsize 3).toStableUnsize (List Nat)).target_metadata ⟨1, (), [7]⟩ =
      (arrayFromMetadataUnsize 3).target_metadata
        (⟨1, (), [7]⟩ : SrcPtr (List Nat) Unit).meta)) :=
  ⟨by decide,
    from_metadata_noninterference (arrayFromMetadataUnsize 3) ⟨1, (), [7]⟩
      ⟨2, (), [8, 9]⟩ (by decide)⟩

/-- Claim C9: cell-wrapper and pinned-wrapper coercion are pure delegation:
for every wrapped value, coercing the wrapper equals unwrapping, coercing the
inner value with whatever inner coercion is supplied, and rewrapping; both
rules are parametric in an arbitrary inner coercion, imposing no capability
requirement of their own. -/
theorem wrapper_delegation_compositional {S U P V : Type}
    (c : CoerceUnsized S U) (d : CoerceUnsized P V) (x : Cell S) (y : Pin P) :
    ((coerceCell c).coerce_unsized x = Cell.new (c.coerce_unsized x.into_inner)) ∧
    ((coercePin d).coerce_unsized y = ⟨d.coerce_unsized y.pointer⟩) :=
  ⟨rfl, rfl⟩

/-- Claim C10, counterexample: the owning-box coercion does not recompute
only the descriptor metadata: on the repository's Tier 1 instance for
growable sequences the data address is recomputed as well and changes. -/
theorem coerceBox_recomputes_address :
    ((coerceBox (vecUnsize Nat)).coerce_unsized boxC10).wide.addr ≠
      boxC10.ptr.addr := by decide

/-- Claim C10 (amended): the owning-box coercion reconstructs the box in
exactly the allocator handle extracted from the source box, and rebuilds the
pointer with both the data address and the descriptor metadata recomputed
through the source capability. -/
theorem coerceBox_preserves_allocator {S MetaS MetaT A : Type}
    (i : Unsize S MetaS MetaT) (b : BoxS S MetaS A) :
    (((coerceBox i).coerce_unsized b).alloc = b.alloc) ∧
    (((coerceBox i).coerce_unsized b).wide =
      ⟨i.target_data_address b.ptr, i.target_metadata b.ptr⟩) :=
  ⟨rfl, rfl⟩

end UnsizeExperiments
